import Mathlib

/-
  Verification of the troupe-os financials module (accounts + double-entry
  ledger core).

  The definitions below are a shallow embedding of the Express route handlers
  in the financials module (`router.post('/accounts')`,
  `router.post('/ledger/entries')`) together with the PostgreSQL tables they
  use (`accounts`, `ledger_entries`, `ledger_lines` from the initial schema:
  `code TEXT UNIQUE` on accounts, `account_id ... REFERENCES accounts(id)` and
  `amount NUMERIC(36,18)` on ledger lines).

  JavaScript dynamic values are modelled by `JSVal`; JavaScript number
  semantics (IEEE-754 binary64) are modelled exactly over `ℚ`: every finite
  double is a dyadic rational, `roundToDouble` is round-to-nearest-ties-to-even
  at 53 significant bits (with the subnormal regime below 2^-1022), and the
  string-to-number coercion `Number(v)` is `jsToNumber`.  Rational arithmetic
  is written with `Rat.divInt`-based helpers (`qadd`, `qmul`, ...) so that all
  computations reduce inside the Lean kernel.

  Storage is modelled by an explicit `DB` state plus an I/O success oracle
  `ok : StoreOp → Bool`; a transaction is a buffer that is applied to the
  visible state only when COMMIT succeeds, which is exactly the visibility
  guarantee of PostgreSQL `BEGIN`/`COMMIT`/`ROLLBACK`.
-/

set_option maxRecDepth 100000

namespace Troupe

/-! ## Exact rational arithmetic helpers

All operations funnel through `Rat.divInt`, which normalizes the fraction; the
ring operations of `ℚ` itself are avoided because they are `irreducible` and
would block kernel evaluation. -/

/-- Build the rational n / d (normalized). -/
def qmk (n d : ℤ) : ℚ := Rat.divInt n d

/-- Exact rational addition. -/
def qadd (a b : ℚ) : ℚ :=
  qmk (a.num * (b.den : ℤ) + b.num * (a.den : ℤ)) ((a.den : ℤ) * (b.den : ℤ))

/-- Exact rational subtraction. -/
def qsub (a b : ℚ) : ℚ :=
  qmk (a.num * (b.den : ℤ) - b.num * (a.den : ℤ)) ((a.den : ℤ) * (b.den : ℤ))

/-- Exact rational multiplication. -/
def qmul (a b : ℚ) : ℚ := qmk (a.num * b.num) ((a.den : ℤ) * (b.den : ℤ))

/-- Exact rational negation. -/
def qneg (a : ℚ) : ℚ := qmk (-a.num) (a.den : ℤ)

/-- Boolean strict order on rationals. -/
def qltb (a b : ℚ) : Bool := a.num * (b.den : ℤ) < b.num * (a.den : ℤ)

/-- Boolean non-strict order on rationals. -/
def qleb (a b : ℚ) : Bool := a.num * (b.den : ℤ) ≤ b.num * (a.den : ℤ)

/-- Absolute value. -/
def qabs (a : ℚ) : ℚ := if qltb a 0 then qneg a else a

/-- Power of two as a rational. -/
def p2 (k : ℕ) : ℚ := qmk (Int.ofNat (2 ^ k)) 1

/-- Inverse power of two as a rational. -/
def p2inv (k : ℕ) : ℚ := qmk 1 (Int.ofNat (2 ^ k))

/-- Signed power of two. -/
def pow2z (e : ℤ) : ℚ := if 0 ≤ e then p2 e.toNat else p2inv (-e).toNat

/-- Signed power of ten. -/
def pow10z (e : ℤ) : ℚ :=
  if 0 ≤ e then qmk (Int.ofNat (10 ^ e.toNat)) 1 else qmk 1 (Int.ofNat (10 ^ (-e).toNat))

/-- Floor of a rational as an integer. -/
def rfloor (q : ℚ) : ℤ := Int.fdiv q.num (q.den : ℤ)

/-- Round a rational to the nearest integer, ties to even. -/
def rne (q : ℚ) : ℤ :=
  let f := rfloor q
  let r := qsub q (qmk f 1)
  if qltb r (qmk 1 2) then f
  else if qltb (qmk 1 2) r then f + 1
  else if f % 2 = 0 then f else f + 1

/-- Fuel-driven binary logarithm on naturals (`log2F fuel n` is the floor of
log2 of n for n ≥ 1, provided fuel ≥ log2 n; the fuel of 5000 used below
covers every magnitude reachable in this development). -/
def log2F : Nat → Nat → Nat
  | 0, _ => 0
  | fuel+1, n => if n ≤ 1 then 0 else log2F fuel (n / 2) + 1

/-- Largest e with 2^e ≤ q, for a positive rational q. -/
def floorLog2 (q : ℚ) : ℤ :=
  let a : ℤ := (log2F 5000 q.num.toNat : ℤ)
  let b : ℤ := (log2F 5000 q.den : ℤ)
  if qleb (pow2z (a - b + 1)) q then a - b + 1
  else if qleb (pow2z (a - b)) q then a - b
  else a - b - 1

/-! ## IEEE-754 binary64 ("JavaScript number") semantics over ℚ -/

/-- Round a rational to the nearest IEEE-754 binary64 value and return that
value as an exact rational: round to nearest, ties to even, 53 significant
bits, fixed quantum 2^-1074 below the normal range.  Overflow past 2^1024 is
not clamped here; callers compare against 2^1024 to detect infinity. -/
def roundToDouble (q : ℚ) : ℚ :=
  if q = 0 then 0
  else
    let a := qabs q
    let e := floorLog2 a
    let scale : ℤ := if e < -1022 then -1074 else e - 52
    let m : ℤ := rne (qmul a (pow2z (-scale)))
    let r := qmul (qmk m 1) (pow2z scale)
    if qltb q 0 then qneg r else r

/-- Result of JavaScript `Number(...)`: NaN, a signed infinity, or a finite
double (carried as its exact rational value). -/
inductive JSNum where
  | nan
  | inf (neg : Bool)
  | fin (q : ℚ)
  deriving DecidableEq

/-- Convert an exact rational into the JavaScript number it denotes: 0, a
finite double, or an infinity when the rounded magnitude reaches 2^1024. -/
def doubleOfRat (q : ℚ) : JSNum :=
  if q = 0 then .fin 0
  else
    let r := roundToDouble q
    if qleb (p2 1024) (qabs r) then .inf (qltb q 0) else .fin r

/-- Addition of two finite doubles (`a + b` in JavaScript): exact sum, then
rounding.  A magnitude of 2^1024 is used as the Infinity sentinel so that
saturation behaves like IEEE overflow for the monotone accumulations done by
the ledger route. -/
def jsAdd (a b : ℚ) : ℚ :=
  let s := roundToDouble (qadd a b)
  if qleb (p2 1024) s then p2 1024
  else if qleb s (qneg (p2 1024)) then qneg (p2 1024) else s

/-- Semantics of `Number(x.toFixed(18))` for a double x: for |x| < 10^21 the
ECMAScript `toFixed` picks the integer n closest to x·10^18 (ties toward the
larger n), prints n/10^18, and `Number` reads that decimal back into a double;
for |x| ≥ 10^21 `toFixed` falls back to `toString`, which round-trips to the
same double. -/
def numToFixed18 (x : ℚ) : ℚ :=
  if qleb (qmk (Int.ofNat (10 ^ 21)) 1) (qabs x) then x
  else roundToDouble (qmk (rfloor (qadd (qmul x (qmk (Int.ofNat (10 ^ 18)) 1)) (qmk 1 2))) (Int.ofNat (10 ^ 18)))

/-- Quantization of an exact rational to 18 fractional decimal digits, the
storage precision of the `NUMERIC(36,18)` amount column in the schema
(PostgreSQL rounds half away from zero; all ledger amounts are positive, for
which this is floor of x·10^18 + 1/2). -/
def numeric18 (x : ℚ) : ℚ :=
  qmk (rfloor (qadd (qmul x (qmk (Int.ofNat (10 ^ 18)) 1)) (qmk 1 2))) (Int.ofNat (10 ^ 18))

/-! ## JavaScript values

Request bodies arrive through `express.json()`, i.e. `JSON.parse`, so number
values are always finite doubles and object keys are unique (later duplicates
overwrite earlier ones during parsing); `undefined` arises from reading an absent
property. -/

/-- Dynamic JavaScript value as delivered by a parsed JSON body (plus
`undefined` for absent properties). -/
inductive JSVal where
  | null
  | undefined
  | bool (b : Bool)
  | num (q : ℚ)
  | str (s : String)
  | arr (elems : List JSVal)
  | obj (fields : List (String × JSVal))

/-- Property lookup in an object field list (first match; JSON-parsed objects
have unique keys). -/
def lookupField : List (String × JSVal) → String → JSVal
  | [], _ => .undefined
  | (k, v) :: rest, key => if k = key then v else lookupField rest key

/-- Reading property `key` of a value, as done by destructuring
`const \x7b key \x7d = v || \x7b\x7d`: objects yield the property (or
`undefined`), every non-object yields `undefined`. -/
def getField : JSVal → String → JSVal
  | .obj fs, key => lookupField fs key
  | _, _ => .undefined

/-- JavaScript truthiness (`!v` is the negation of this).  `num` holds only
finite doubles here (JSON cannot carry NaN), so the NaN-falsy case does not
arise. -/
def truthy : JSVal → Bool
  | .null => false
  | .undefined => false
  | .bool b => b
  | .num q => if q = 0 then false else true
  | .str s => if s = "" then false else true
  | .arr _ => true
  | .obj _ => true

/-- Loose equality with null (`v == null`), true exactly for null and
undefined. -/
def looseNull : JSVal → Bool
  | .null => true
  | .undefined => true
  | _ => false

/-- ASCII lower-casing of one character (`String.prototype.toLowerCase` on the
ASCII range used by direction tokens). -/
def charLower (c : Char) : Char :=
  if 'A' ≤ c ∧ c ≤ 'Z' then Char.ofNat (c.toNat + 32) else c

/-- ASCII upper-casing of one character. -/
def charUpper (c : Char) : Char :=
  if 'a' ≤ c ∧ c ≤ 'z' then Char.ofNat (c.toNat - 32) else c

/-- Lower-case a string (ASCII). -/
def lowerStr (s : String) : String := String.mk (s.data.map charLower)

/-- Upper-case a string (ASCII). -/
def upperStr (s : String) : String := String.mk (s.data.map charUpper)

/-- Whitespace for the purposes of `Number(string)` trimming. -/
def isWS (c : Char) : Bool := c = ' ' ∨ c = '\t' ∨ c = '\n' ∨ c = '\r'

/-- Trim leading and trailing whitespace from a character list. -/
def trimChars (cs : List Char) : List Char :=
  ((cs.dropWhile isWS).reverse.dropWhile isWS).reverse

/-- Decimal digit test. -/
def digi (c : Char) : Bool := '0' ≤ c ∧ c ≤ '9'

/-- Accumulate decimal digits into a natural number. -/
def digitsToNat (acc : ℕ) : List Char → ℕ
  | [] => acc
  | c :: rest => digitsToNat (acc * 10 + (c.toNat - 48)) rest

/-- Value of one hexadecimal digit, if any. -/
def hexDigitVal (c : Char) : Option ℕ :=
  if digi c then some (c.toNat - 48)
  else if 'a' ≤ c ∧ c ≤ 'f' then some (c.toNat - 87)
  else if 'A' ≤ c ∧ c ≤ 'F' then some (c.toNat - 55)
  else none

/-- Read digits in base r (r ≤ 16); none on any out-of-range character. -/
def radixVal (r : ℕ) : List Char → ℕ → Option ℕ
  | [], acc => some acc
  | c :: rest, acc =>
    match hexDigitVal c with
    | some v => if v < r then radixVal r rest (acc * r + v) else none
    | none => none

/-- Decimal text of an integer. -/
def intStr (n : ℤ) : String := toString n

/-- Parse an unsigned ECMAScript StrUnsignedDecimalLiteral
(digits [. digits] [e [sign] digits]) occupying the whole input; the exact
rational value on success. -/
def parseDec (cs : List Char) : Option ℚ :=
  let p1 := cs.span digi
  let ip := p1.1
  let p2' := match p1.2 with
    | '.' :: rest => rest.span digi
    | _ => ([], p1.2)
  let fp := p2'.1
  if ip.isEmpty ∧ fp.isEmpty then none
  else
    let mant : ℤ := Int.ofNat (digitsToNat 0 (ip ++ fp))
    match p2'.2 with
    | [] => some (qmul (qmk mant 1) (pow10z (-(fp.length : ℤ))))
    | c :: rest =>
      if c = 'e' ∨ c = 'E' then
        let ep := match rest with
          | '+' :: r2 => ((1 : ℤ), r2.span digi)
          | '-' :: r2 => ((-1 : ℤ), r2.span digi)
          | r2 => ((1 : ℤ), r2.span digi)
        if ep.2.1.isEmpty ∨ ¬ ep.2.2.isEmpty then none
        else
          let ex : ℤ := ep.1 * Int.ofNat (digitsToNat 0 ep.2.1)
          some (qmul (qmk mant 1) (pow10z (ex - (fp.length : ℤ))))
      else none

/-- Semantics of `Number(string)`: trim whitespace; empty means 0; unsigned
hex/octal/binary literals; otherwise an optionally signed decimal literal or
Infinity; anything else is NaN.  The resulting mathematical value is rounded
to binary64. -/
def strToNumber (s : String) : JSNum :=
  let cs := trimChars s.data
  if cs.isEmpty then .fin 0
  else
    let radix : Option (ℕ × List Char) := match cs with
      | '0' :: c :: rest =>
        if c = 'x' ∨ c = 'X' then some (16, rest)
        else if c = 'o' ∨ c = 'O' then some (8, rest)
        else if c = 'b' ∨ c = 'B' then some (2, rest)
        else none
      | _ => none
    match radix with
    | some rr =>
      if rr.2.isEmpty then .nan
      else
        match radixVal rr.1 rr.2 0 with
        | some n => doubleOfRat (qmk (Int.ofNat n) 1)
        | none => .nan
    | none =>
      let sg : ℤ := match cs with
        | '-' :: _ => -1
        | _ => 1
      let cs2 := match cs with
        | '+' :: r => r
        | '-' :: r => r
        | r => r
      if cs2 = "Infinity".data then .inf (sg < 0)
      else
        match parseDec cs2 with
        | some q => doubleOfRat (if sg < 0 then qneg q else q)
        | none => .nan

/-- Decimal text of a JavaScript number (used when a non-string flows into
`String(...)` or an array join).  Integers below 10^21 match JavaScript
exactly.  For non-integer doubles this prints the exact (finite) decimal
expansion of the dyadic rational; JavaScript prints the shortest decimal that
round-trips, so both spellings denote the same double under `Number`. -/
def numToString (q : ℚ) : String :=
  if q.den = 1 then intStr q.num
  else
    let k := log2F 5000 q.den
    if q.den = 2 ^ k then
      let scaled : ℤ := q.num * Int.ofNat (5 ^ k)
      let sign : String := if scaled < 0 then "-" else ""
      let mag := scaled.natAbs
      let ipart := mag / 10 ^ k
      let fpart := mag % 10 ^ k
      let fraw := (Nat.toDigits 10 fpart).map id
      let fdigits := List.replicate (k - fraw.length) '0' ++ fraw
      let ftrim := (fdigits.reverse.dropWhile (fun c => c = '0')).reverse
      sign ++ toString ipart ++ "." ++ String.mk ftrim
    else intStr q.num ++ "/" ++ intStr (q.den : ℤ)

mutual

/-- Semantics of `String(v)` (array-to-primitive goes through
`Array.prototype.join(",")`, plain objects print as "[object Object]"). -/
def jsToString : JSVal → String
  | .null => "null"
  | .undefined => "undefined"
  | .bool b => if b then "true" else "false"
  | .num q => numToString q
  | .str s => s
  | .arr xs => joinVals xs
  | .obj _ => "[object Object]"

/-- Array join with separator ",", with null/undefined elements becoming
empty strings. -/
def joinVals : List JSVal → String
  | [] => ""
  | v :: rest =>
    let sv := match v with
      | .null => ""
      | .undefined => ""
      | w => jsToString w
    match rest with
    | [] => sv
    | _ => sv ++ "," ++ joinVals rest

end

/-- Semantics of `Number(v)` on dynamic values. -/
def jsToNumber : JSVal → JSNum
  | .null => .fin 0
  | .undefined => .nan
  | .bool b => .fin (if b then qmk 1 1 else 0)
  | .num q => .fin q
  | .str s => strToNumber s
  | .arr xs => strToNumber (joinVals xs)
  | .obj _ => .nan

/-! ## Store model

PostgreSQL state visible to readers, plus an I/O success oracle.  A posting
transaction accumulates its writes in a buffer that is published only by a
successful COMMIT; on any failure the buffer is dropped (ROLLBACK).  Columns
that no claim observes (timestamps with time zone details, `updated_at`,
`created_by_id`, owner references, indexes) are elided. -/

/-- Row of the `accounts` table (`code` is `TEXT UNIQUE`, nullable). -/
structure AccountRow where
  id : String
  name : String
  code : Option String
  currency : String
  is_active : Bool
  deriving DecidableEq

/-- Row of the `ledger_entries` table. -/
structure EntryRow where
  id : String
  occurred_at : String
  description : JSVal
  reference_type : JSVal
  reference_id : JSVal
  metadata : JSVal
  created_at : String

/-- Row of the `ledger_lines` table (BIGSERIAL id; `amount` is the exact
rational value of the double the route passed to the INSERT, the
`NUMERIC(36,18)` column quantization being `numeric18`). -/
structure LineRow where
  id : Nat
  entry_id : String
  account_id : JSVal
  direction : String
  amount : ℚ
  currency : String
  metadata : JSVal

/-- Visible database state. -/
structure DB where
  accounts : List AccountRow
  entries : List EntryRow
  lines : List LineRow
  nextLineId : Nat

/-- Storage operations that can fail with an I/O error, keyed for the success
oracle. -/
inductive StoreOp where
  | connect
  | begin
  | insertEntry
  | insertLine (i : Nat)
  | commit
  deriving DecidableEq

/-- Events of the storage trace (each attempted operation is recorded;
`rollback` and `release` model `client.query('ROLLBACK')` and
`client.release()`). -/
inductive Ev where
  | connect
  | begin
  | insertEntry
  | insertLine
  | commit
  | rollback
  | release
  deriving DecidableEq

/-- Foreign-key check of `ledger_lines.account_id REFERENCES accounts(id)`:
the inserted value must match an existing account id (non-string values fail
the UUID cast, which surfaces as the same query error). -/
def accountExists (accts : List AccountRow) : JSVal → Bool
  | .str s => accts.any (fun a => a.id = s)
  | _ => false

/-- Read-side lookup of an entry by id. -/
def findEntry (db : DB) (eid : String) : Option EntryRow :=
  db.entries.find? (fun e => e.id = eid)

/-! ## Financials route embedding -/

/-- HTTP response: status plus the JSON payload passed to `res.json`. -/
structure Resp where
  status : Nat
  body : JSVal

/-- JSON object with a single error message, the module's uniform error
payload shape. -/
def errObj (msg : String) : JSVal := .obj [("error", .str msg)]

/-- Validation failure response (`res.status(400).json(...)`). -/
def vErr (msg : String) : Resp := ⟨400, errObj msg⟩

/-- Balance-mismatch response of the ledger route, carrying the two rounded
totals as JSON numbers under `details`. -/
def balanceErrResp (rd rc : ℚ) : Resp :=
  ⟨400, .obj [("error", .str "Debits and credits must balance"),
              ("details", .obj [("total_debits", .num rd), ("total_credits", .num rc)])]⟩

/-- Helper of the module: `typeof v === 'string' && v.trim().length > 0`. -/
def isNonEmptyString : JSVal → Bool
  | .str s => ¬ (trimChars s.data).isEmpty
  | _ => false

/-- Normalized ledger line as pushed onto `normalizedLines`. -/
structure NormLine where
  account_id : JSVal
  direction : String
  amount : ℚ
  currency : String
  metadata : JSVal

/-- Field read of a raw line used by the validation loop. -/
def lineField (l : JSVal) (key : String) : JSVal := getField l key

/-- Lower-cased direction string of a raw line (`String(direction).toLowerCase()`). -/
def dirOf (l : JSVal) : String := lowerStr (jsToString (lineField l "direction"))

/-- Upper-cased currency string of a raw line (`String(lineCurrency).toUpperCase()`). -/
def ccyOf (l : JSVal) : String := upperStr (jsToString (lineField l "currency"))

/-- Metadata of a raw line after `lineMetadata || \x7b\x7d`. -/
def metaOr (l : JSVal) : JSVal :=
  if truthy (lineField l "metadata") then lineField l "metadata" else .obj []

/-- Presence check of the validation loop:
`!account_id || !direction || amount == null || !lineCurrency`. -/
def goodFields (l : JSVal) : Bool :=
  truthy (lineField l "account_id") && truthy (lineField l "direction") &&
    !(looseNull (lineField l "amount")) && truthy (lineField l "currency")

/-- Direction well-formedness: the lower-cased direction reads debit or
credit. -/
def goodDir (l : JSVal) : Bool := dirOf l = "debit" || dirOf l = "credit"

/-- Normalized line pushed onto `normalizedLines` for a raw line whose amount
coerced to the double q. -/
def mkNorm (l : JSVal) (q : ℚ) : NormLine :=
  { account_id := lineField l "account_id", direction := dirOf l,
    amount := q, currency := ccyOf l, metadata := metaOr l }

/-- One iteration of the validation loop of `POST /financials/ledger/entries`
over a raw line, given the `currency` loop variable (None before the first
line; note `if (!currency)` also treats an empty string as unset). -/
def checkLine (cur : Option String) (l : JSVal) : Except Resp NormLine :=
  if goodFields l then
    if goodDir l then
      match jsToNumber (lineField l "amount") with
      | .fin q =>
        if qleb q 0 then .error (vErr "amount must be a positive number")
        else
          match cur with
          | none => .ok (mkNorm l q)
          | some c =>
            if c = "" then .ok (mkNorm l q)
            else if c = ccyOf l then .ok (mkNorm l q)
            else .error (vErr "All lines must use the same currency")
      | _ => .error (vErr "amount must be a positive number")
    else .error (vErr "direction must be debit or credit")
  else .error (vErr "Each line requires account_id, direction, amount, and currency")

/-- Validation loop over the raw lines, threading the `currency` variable and
the two float accumulators.  After a successful iteration the loop variable
equals `some nl.currency`: when it was unset (None or empty) the code assigns
`ccy`, and otherwise success required equality with `ccy` already. -/
def validateLines : List JSVal → Option String → ℚ → ℚ → List NormLine →
    Except Resp (List NormLine × ℚ × ℚ)
  | [], _, totD, totC, acc => .ok (acc.reverse, totD, totC)
  | l :: rest, cur, totD, totC, acc =>
    match checkLine cur l with
    | .error r => .error r
    | .ok nl =>
      validateLines rest (some nl.currency)
        (if nl.direction = "debit" then jsAdd totD nl.amount else totD)
        (if nl.direction = "debit" then totC else jsAdd totC nl.amount)
        (nl :: acc)

/-- Validation phase of `POST /financials/ledger/entries`: array/length check,
per-line validation, then the float balance comparison
`Number(totalDebits.toFixed(18)) !== Number(totalCredits.toFixed(18))`. -/
def validateEntryBody (body : JSVal) : Except Resp (List NormLine × ℚ × ℚ) :=
  match getField body "lines" with
  | .arr ls =>
    if ls.length < 2 then .error (vErr "At least two ledger lines are required")
    else
      match validateLines ls none 0 0 [] with
      | .error r => .error r
      | .ok res =>
        if numToFixed18 res.2.1 = numToFixed18 res.2.2 then .ok res
        else .error (balanceErrResp (numToFixed18 res.2.1) (numToFixed18 res.2.2))
  | _ => .error (vErr "At least two ledger lines are required")

/-- Coalescing `v || null` as used for nullable insert parameters. -/
def orNull (v : JSVal) : JSVal := if truthy v then v else .null

/-- Entry-header row written by the INSERT INTO ledger_entries (the generated
uuid and the NOW() timestamp are supplied as parameters `eid`, `now`). -/
def entryRowOf (eid now : String) (body : JSVal) : EntryRow :=
  { id := eid, occurred_at := now,
    description := orNull (getField body "description"),
    reference_type := orNull (getField body "reference_type"),
    reference_id := orNull (getField body "reference_id"),
    metadata := if truthy (getField body "metadata") then getField body "metadata" else .obj [],
    created_at := now }

/-- Line-insert loop inside the transaction: for each normalized line one
INSERT INTO ledger_lines, which fails on an I/O fault of the oracle or on the
foreign-key check of `account_id`.  Returns the trace of attempted inserts and
the inserted rows (None when some insert failed, aborting the loop). -/
def insertLinesLoop (accts : List AccountRow) (ok : StoreOp → Bool) (eid : String) :
    List NormLine → Nat → Nat → List Ev × Option (List LineRow)
  | [], _, _ => ([], some [])
  | l :: rest, i, nid =>
    if ok (.insertLine i) then
      if accountExists accts l.account_id then
        match insertLinesLoop accts ok eid rest (i + 1) (nid + 1) with
        | (evs, none) => (.insertLine :: evs, none)
        | (evs, some rows) =>
          (.insertLine :: evs,
           some ({ id := nid, entry_id := eid, account_id := l.account_id,
                   direction := l.direction, amount := l.amount,
                   currency := l.currency, metadata := l.metadata } :: rows))
      else ([.insertLine], none)
    else ([.insertLine], none)

/-- JSON rendering of the RETURNING clause of the entry insert. -/
def renderEntry (e : EntryRow) : JSVal :=
  .obj [("id", .str e.id), ("occurred_at", .str e.occurred_at),
        ("description", e.description), ("reference_type", e.reference_type),
        ("reference_id", e.reference_id), ("metadata", e.metadata),
        ("created_at", .str e.created_at)]

/-- JSON rendering of the RETURNING clause of a line insert (numeric driver
formatting is not modelled; the amount is carried as its value). -/
def renderLine (l : LineRow) : JSVal :=
  .obj [("id", .num (qmk (Int.ofNat l.id) 1)), ("account_id", l.account_id),
        ("direction", .str l.direction), ("amount", .num l.amount),
        ("currency", .str l.currency), ("metadata", l.metadata)]

/-- Uniform 500 response of the ledger route's catch block. -/
def ledgerFailResp : Resp := ⟨500, errObj "Failed to create ledger entry"⟩

/-- Storage phase of `POST /financials/ledger/entries`: connect, BEGIN, insert
the header, insert each line, COMMIT; any failure after BEGIN triggers the
catch block, which issues ROLLBACK and answers 500; `finally` releases the
client.  The transaction buffer is published into the visible state only by a
successful COMMIT. -/
def storagePhase (db : DB) (ok : StoreOp → Bool) (eid now : String) (body : JSVal)
    (nls : List NormLine) : Resp × DB × List Ev :=
  if ok .connect then
    if ok .begin then
      if ok .insertEntry then
        let entry := entryRowOf eid now body
        match insertLinesLoop db.accounts ok eid nls 0 db.nextLineId with
        | (evs, none) =>
          (ledgerFailResp, db, [Ev.connect, Ev.begin, Ev.insertEntry] ++ evs ++ [Ev.rollback, Ev.release])
        | (evs, some rows) =>
          if ok .commit then
            (⟨201, .obj [("entry", renderEntry entry), ("lines", .arr (rows.map renderLine))]⟩,
             { db with entries := db.entries ++ [entry], lines := db.lines ++ rows,
                       nextLineId := db.nextLineId + rows.length },
             [Ev.connect, Ev.begin, Ev.insertEntry] ++ evs ++ [Ev.commit, Ev.release])
          else
            (ledgerFailResp, db, [Ev.connect, Ev.begin, Ev.insertEntry] ++ evs ++ [Ev.commit, Ev.rollback, Ev.release])
      else (ledgerFailResp, db, [Ev.connect, Ev.begin, Ev.insertEntry, Ev.rollback, Ev.release])
    else (ledgerFailResp, db, [Ev.connect, Ev.begin, Ev.rollback, Ev.release])
  else (⟨500, errObj "Database connection failed"⟩, db, [Ev.connect])

/-- Embedding of the handler of `POST /financials/ledger/entries`: validation
first (no storage interaction), then the transactional storage phase. -/
def postLedgerEntries (db : DB) (ok : StoreOp → Bool) (eid now : String) (body : JSVal) :
    Resp × DB × List Ev :=
  match validateEntryBody body with
  | .error r => (r, db, [])
  | .ok res => storagePhase db ok eid now body res.1

/-- JSON rendering of RETURNING * of the account insert (restricted to the
modelled columns). -/
def renderAccount (a : AccountRow) : JSVal :=
  .obj [("id", .str a.id), ("name", .str a.name),
        ("code", match a.code with | some c => .str c | none => .null),
        ("currency", .str a.currency), ("is_active", .bool a.is_active)]

/-- Embedding of the handler of `POST /financials/accounts`: requires a
non-empty string name, then INSERTs; a unique-constraint collision on `code`
or an I/O fault is caught and answered with the generic 500. -/
def postAccounts (db : DB) (okIns : Bool) (newId : String) (body : JSVal) : Resp × DB :=
  if isNonEmptyString (getField body "name") then
    let codeV := getField body "code"
    let codeStored : Option String := if truthy codeV then some (jsToString codeV) else none
    let collide : Bool := match codeStored with
      | some c => db.accounts.any (fun a => a.code = some c)
      | none => false
    if collide || !okIns then (⟨500, errObj "Failed to create account"⟩, db)
    else
      let row : AccountRow :=
        { id := newId, name := jsToString (getField body "name"), code := codeStored,
          currency := if truthy (getField body "currency") then jsToString (getField body "currency") else "USD",
          is_active := true }
      (⟨201, renderAccount row⟩, { db with accounts := db.accounts ++ [row] })
  else (⟨400, errObj "name is required"⟩, db)

/-! ## Spec-side definitions used to state the balance invariant -/

/-- Modelled from the spec: exact fixed-point summation of the amounts of the
lines with the given direction ("sum debit amounts and sum credit amounts
using exact fixed-point addition (never binary float accumulation)"). -/
def exactSum (dir : String) (rows : List LineRow) : ℚ :=
  (rows.filter (fun l => l.direction = dir)).foldl (fun s l => qadd s l.amount) 0

/-! ## Concrete request material used by the claims -/

/-- Failed line amount gate: `!Number.isFinite(n) || n <= 0`. -/
def badAmt (l : JSVal) : Bool :=
  match jsToNumber (lineField l "amount") with
  | .fin q => qleb q 0
  | _ => true

/-- Raw ledger line object as sent in a request body. -/
def mkLine (acct dir : String) (amt : JSVal) (ccy : String) : JSVal :=
  .obj [("account_id", .str acct), ("direction", .str dir), ("amount", amt), ("currency", .str ccy)]

/-- Request body with the given lines. -/
def mkBody (ls : List JSVal) : JSVal := .obj [("lines", .arr ls)]

/-- Minimal active account row. -/
def acctRow (i : String) : AccountRow :=
  { id := i, name := i, code := none, currency := "USD", is_active := true }

/-- Ledger database with four known accounts and an empty ledger. -/
def ledgerDb : DB :=
  { accounts := [acctRow "a1", acctRow "a2", acctRow "a3", acctRow "a4"],
    entries := [], lines := [], nextLineId := 1 }

/-- Oracle under which every storage operation succeeds. -/
def allOk : StoreOp → Bool := fun _ => true

/-- Lines of a request whose posted entry violates exact per-currency balance:
float accumulation absorbs the 10^-18 debit (1 + 1e-18 rounds to 1 in
binary64), so the toFixed(18) comparison sees equal totals. -/
def c1Body : JSVal := mkBody
  [mkLine "a1" "debit" (.str "1") "USD",
   mkLine "a2" "debit" (.str "0.000000000000000001") "USD",
   mkLine "a3" "credit" (.str "1") "USD"]

/-- Result of posting `c1Body` against the fresh ledger with all storage
operations succeeding. -/
def c1Run : Resp × DB × List Ev := postLedgerEntries ledgerDb allOk "e1" "t0" c1Body

/-- Lines of entry e1 in the database state after the C1 run. -/
def c1Lines : List LineRow := c1Run.2.1.lines.filter (fun l => l.entry_id = "e1")

/-- Body of the C3 witness: an unbalanced two-line request. -/
def c3Body : JSVal := mkBody
  [mkLine "a1" "debit" (.str "100.00") "USD", mkLine "a2" "credit" (.str "99.98") "USD"]

/-- Test for a lines value that fails the `!Array.isArray(lines) ||
lines.length < 2` guard. -/
def linesTooFew : JSVal → Bool
  | .arr ls => ls.length < 2
  | _ => true

/-- Oracle for the C2 witness: everything succeeds except COMMIT. -/
def c2ok : StoreOp → Bool := fun s => match s with | .commit => false | _ => true

/-- Balanced two-line body of the C2 witness. -/
def c2Body : JSVal := mkBody
  [mkLine "a1" "debit" (.str "100") "USD", mkLine "a2" "credit" (.str "100") "USD"]

/-- Normalized lines produced by validating `c2Body`. -/
def c2Nls : List NormLine :=
  [{ account_id := .str "a1", direction := "debit", amount := qmk 100 1,
     currency := "USD", metadata := .obj [] },
   { account_id := .str "a2", direction := "credit", amount := qmk 100 1,
     currency := "USD", metadata := .obj [] }]

/-- Lines of a request spanning two currencies, each balancing
independently. -/
def c4Lines : List JSVal :=
  [mkLine "a1" "debit" (.str "100") "USD", mkLine "a2" "credit" (.str "100") "USD",
   mkLine "a3" "debit" (.str "50") "EUR", mkLine "a4" "credit" (.str "50") "EUR"]

/-- Body of the C4 requests. -/
def c4Body : JSVal := mkBody c4Lines

/-- Database for the C5 runs: only account a1 exists. -/
def c5Db : DB := { accounts := [acctRow "a1"], entries := [], lines := [], nextLineId := 1 }

/-- Balanced body whose credit line references the nonexistent account
"ghost". -/
def c5Body : JSVal := mkBody
  [mkLine "a1" "debit" (.str "5") "USD", mkLine "ghost" "credit" (.str "5") "USD"]

/-- Normalized lines produced by validating `c5Body`. -/
def c5Nls : List NormLine :=
  [{ account_id := .str "a1", direction := "debit", amount := qmk 5 1,
     currency := "USD", metadata := .obj [] },
   { account_id := .str "ghost", direction := "credit", amount := qmk 5 1,
     currency := "USD", metadata := .obj [] }]

/-- Unbalanced two-line USD body of the C6 runs (debit 100.00, credit
99.99). -/
def c6Body : JSVal := mkBody
  [mkLine "a1" "debit" (.str "100.00") "USD", mkLine "a2" "credit" (.str "99.99") "USD"]

/-- Normalized lines produced by validating `c6Body`. -/
def c6Nls : List NormLine :=
  [{ account_id := .str "a1", direction := "debit", amount := qmk 100 1,
     currency := "USD", metadata := .obj [] },
   { account_id := .str "a2", direction := "credit",
     amount := qmk 7036170730324623 (Int.ofNat (2 ^ 46)),
     currency := "USD", metadata := .obj [] }]

/-- Body of the C8 witness: a zero-amount debit against a one-unit credit. -/
def c8Body : JSVal := mkBody
  [mkLine "a1" "debit" (.str "0") "USD", mkLine "a2" "credit" (.str "1") "USD"]

/-- Database for the C9 runs: an account with code CASH already exists. -/
def c9Db : DB :=
  { accounts := [{ id := "a1", name := "Cash", code := some "CASH",
                   currency := "USD", is_active := true }],
    entries := [], lines := [], nextLineId := 1 }

/-- Account-creation body whose code collides with the existing CASH
account. -/
def c9Body : JSVal := .obj [("name", .str "Operations"), ("code", .str "CASH")]

/-- Body of the C10 run: the debit amount is the boolean true, the credit
amount the string "1". -/
def c10Body : JSVal := mkBody
  [mkLine "a1" "debit" (.bool true) "USD", mkLine "a2" "credit" (.str "1") "USD"]

/-! ## Helper lemmas -/

/-- Any error produced by one validation-loop iteration is an HTTP 400. -/
theorem checkLine_err_status {cur : Option String} {l : JSVal} {r : Resp}
    (h : checkLine cur l = .error r) : r.status = 400 := by
  unfold checkLine at h
  repeat' split at h
  all_goals cases h <;> rfl

theorem validateLines_err_status {ls : List JSVal} {cur : Option String}
    {totD totC : ℚ} {acc : List NormLine} {r : Resp}
    (h : validateLines ls cur totD totC acc = .error r) : r.status = 400 := by
  induction ls generalizing cur totD totC acc with
  | nil => exact absurd h (by simp [validateLines])
  | cons l rest ih =>
    unfold validateLines at h
    cases hc : checkLine cur l with
    | error r2 =>
      rw [hc] at h
      cases h
      exact checkLine_err_status hc
    | ok nl =>
      rw [hc] at h
      exact ih h

theorem validateEntryBody_err_status {body : JSVal} {r : Resp}
    (h : validateEntryBody body = .error r) : r.status = 400 := by
  unfold validateEntryBody at h
  split at h
  · rename_i ls hl
    split at h
    · cases h; rfl
    · cases hv : validateLines ls none 0 0 [] with
      | error r2 =>
        simp only [hv] at h
        cases h
        exact validateLines_err_status hv
      | ok res =>
        simp only [hv] at h
        split at h
        · cases h
        · cases h; rfl
  · cases h; rfl

theorem checkLine_ok {cur : Option String} {l : JSVal} {q : ℚ}
    (hf : goodFields l = true) (hd : goodDir l = true)
    (ha : jsToNumber (lineField l "amount") = .fin q) (hq : qleb q 0 = false)
    (hc : cur = none ∨ cur = some "" ∨ cur = some (ccyOf l)) :
    checkLine cur l = .ok (mkNorm l q) := by
  unfold checkLine
  simp only [hf, hd, ha, hq, if_true, Bool.false_eq_true, if_false]
  rcases hc with h | h | h <;> subst h <;> simp

theorem checkLine_amount_err {cur : Option String} {l : JSVal}
    (hf : goodFields l = true) (hd : goodDir l = true) (hb : badAmt l = true) :
    checkLine cur l = .error (vErr "amount must be a positive number") := by
  unfold checkLine
  simp only [hf, hd, if_true]
  unfold badAmt at hb
  cases ha : jsToNumber (lineField l "amount") with
  | fin q =>
    rw [ha] at hb
    have hb2 : qleb q 0 = true := hb
    simp [ha, hb2]
  | nan => simp [ha]
  | inf b => simp [ha]

theorem checkLine_ccy_err {c : String} {l : JSVal} {q : ℚ}
    (hf : goodFields l = true) (hd : goodDir l = true)
    (ha : jsToNumber (lineField l "amount") = .fin q) (hq : qleb q 0 = false)
    (hne : c ≠ "") (hcc : c ≠ ccyOf l) :
    checkLine (some c) l = .error (vErr "All lines must use the same currency") := by
  unfold checkLine
  simp only [hf, hd, ha, if_true]
  simp [hq, hne, hcc]

theorem badAmt_false_elim {l : JSVal} (h : badAmt l = false) :
    ∃ q, jsToNumber (lineField l "amount") = .fin q ∧ qleb q 0 = false := by
  unfold badAmt at h
  cases ha : jsToNumber (lineField l "amount") with
  | fin q => rw [ha] at h; exact ⟨q, rfl, h⟩
  | nan => rw [ha] at h; cases h
  | inf b => rw [ha] at h; cases h

theorem validateLines_amount_err {ls : List JSVal} {cur : Option String}
    {totD totC : ℚ} {acc : List NormLine}
    (hwf : ∀ l ∈ ls, goodFields l = true ∧ goodDir l = true)
    (heq : ∀ l1 ∈ ls, ∀ l2 ∈ ls, ccyOf l1 = ccyOf l2)
    (hex : ∃ l ∈ ls, badAmt l = true)
    (hcur : cur = none ∨ cur = some "" ∨ ∀ l ∈ ls, cur = some (ccyOf l)) :
    validateLines ls cur totD totC acc = .error (vErr "amount must be a positive number") := by
  induction ls generalizing cur totD totC acc with
  | nil => simp at hex
  | cons l rest ih =>
    have hf := (hwf l (by simp)).1
    have hd := (hwf l (by simp)).2
    cases hb : badAmt l with
    | true =>
      unfold validateLines
      rw [checkLine_amount_err hf hd hb]
    | false =>
      obtain ⟨q, ha, hq⟩ := badAmt_false_elim hb
      have hc : cur = none ∨ cur = some "" ∨ cur = some (ccyOf l) := by
        rcases hcur with h | h | h
        · exact Or.inl h
        · exact Or.inr (Or.inl h)
        · exact Or.inr (Or.inr (h l (by simp)))
      unfold validateLines
      rw [checkLine_ok hf hd ha hq hc]
      have hex2 : ∃ l2 ∈ rest, badAmt l2 = true := by
        obtain ⟨l2, hl2, hb2⟩ := hex
        rcases List.mem_cons.mp hl2 with h | h
        · subst h; rw [hb] at hb2; cases hb2
        · exact ⟨l2, h, hb2⟩
      exact ih (fun l2 h2 => hwf l2 (List.mem_cons_of_mem l h2))
        (fun l1 h1 l2 h2 => heq l1 (List.mem_cons_of_mem l h1) l2 (List.mem_cons_of_mem l h2))
        hex2
        (Or.inr (Or.inr (fun l2 h2 => by
          have : ccyOf l2 = ccyOf l :=
            heq l2 (List.mem_cons_of_mem l h2) l (by simp)
          simp [mkNorm, this])))

theorem validateLines_ccy_err {ls : List JSVal} {c : String} {totD totC : ℚ}
    {acc : List NormLine}
    (hwf : ∀ l ∈ ls, goodFields l = true ∧ goodDir l = true ∧ badAmt l = false)
    (hne : c ≠ "")
    (hex : ∃ l ∈ ls, ccyOf l ≠ c) :
    validateLines ls (some c) totD totC acc = .error (vErr "All lines must use the same currency") := by
  induction ls generalizing totD totC acc with
  | nil => simp at hex
  | cons l rest ih =>
    have hf := (hwf l (by simp)).1
    have hd := (hwf l (by simp)).2.1
    obtain ⟨q, ha, hq⟩ := badAmt_false_elim (hwf l (by simp)).2.2
    by_cases hcc : ccyOf l = c
    · have hex2 : ∃ l2 ∈ rest, ccyOf l2 ≠ c := by
        obtain ⟨l2, hl2, hc2⟩ := hex
        rcases List.mem_cons.mp hl2 with h | h
        · subst h; exact absurd hcc hc2
        · exact ⟨l2, h, hc2⟩
      unfold validateLines
      simp only [checkLine_ok hf hd ha hq (Or.inr (Or.inr (by rw [hcc])))]
      have hcur : (mkNorm l q).currency = c := by simp [mkNorm, hcc]
      rw [hcur]
      exact ih (fun l2 h2 => hwf l2 (List.mem_cons_of_mem l h2)) hex2
    · unfold validateLines
      rw [checkLine_ccy_err hf hd ha hq hne (fun h => hcc h.symm)]

theorem insertLinesLoop_some_ok {accts : List AccountRow} {ok : StoreOp → Bool}
    {eid : String} :
    ∀ (nls : List NormLine) (i nid : Nat) (rows : List LineRow),
    (insertLinesLoop accts ok eid nls i nid).2 = some rows →
    (∀ j, j < nls.length → ok (.insertLine (i + j)) = true) ∧
    (∀ l ∈ nls, accountExists accts l.account_id = true) := by
  intro nls
  induction nls with
  | nil =>
    intro i nid rows _
    exact ⟨fun j hj => absurd hj (by simp), fun l hl => absurd hl (by simp)⟩
  | cons l rest ih =>
    intro i nid rows h
    unfold insertLinesLoop at h
    cases hok : ok (.insertLine i) with
    | false => rw [hok] at h; simp at h
    | true =>
      rw [hok] at h
      cases hfk : accountExists accts l.account_id with
      | false => rw [hfk] at h; simp at h
      | true =>
        rw [hfk] at h
        simp only [if_true] at h
        cases hr : insertLinesLoop accts ok eid rest (i + 1) (nid + 1) with
        | mk evs o =>
          rw [hr] at h
          cases o with
          | none => simp at h
          | some rows2 =>
            have hih := ih (i + 1) (nid + 1) rows2 (by rw [hr])
            refine ⟨fun j hj => ?_, fun l2 hl2 => ?_⟩
            · cases j with
              | zero => simpa using hok
              | succ j2 =>
                have h2 := hih.1 j2 (by simpa using hj)
                have h3 : i + 1 + j2 = i + (j2 + 1) := by omega
                rw [h3] at h2
                exact h2
            · rcases List.mem_cons.mp hl2 with h2 | h2
              · subst h2; exact hfk
              · exact hih.2 l2 h2

theorem storagePhase_abort {db : DB} {ok : StoreOp → Bool} {eid now : String}
    {body : JSVal} {nls : List NormLine}
    (hc : ok .connect = true) (hb : ok .begin = true)
    (h : ok .insertEntry = false ∨
      (insertLinesLoop db.accounts ok eid nls 0 db.nextLineId).2 = none ∨
      ok .commit = false) :
    (storagePhase db ok eid now body nls).1 = ledgerFailResp ∧
    (storagePhase db ok eid now body nls).2.1 = db ∧
    Ev.rollback ∈ (storagePhase db ok eid now body nls).2.2 := by
  unfold storagePhase
  rw [hc, hb]
  simp only [if_true]
  cases he : ok .insertEntry with
  | false => exact ⟨rfl, rfl, by simp⟩
  | true =>
    simp only [if_true]
    cases hr : insertLinesLoop db.accounts ok eid nls 0 db.nextLineId with
    | mk evs o =>
      cases o with
      | none => exact ⟨rfl, rfl, by simp⟩
      | some rows =>
        rcases h with h | h | h
        · rw [he] at h; cases h
        · rw [hr] at h; simp at h
        · rw [h]
          refine ⟨rfl, rfl, ?_⟩
          simp

/-! ## Claim theorems -/

/-- C1: the claim states that every entry accepted by POST
/financials/ledger/entries has, per currency, exactly equal debit and credit
sums to the full 18-fractional-digit stored precision.  The code instead
accumulates amounts in binary floating point and compares the totals after
toFixed(18): the request `c1Body` (debits 1 and 0.000000000000000001, credit
1, all USD) is accepted with status 201, yet the exact sums of the stored
debit and credit amounts differ, and still differ after quantization to the
18-fractional-digit precision of the NUMERIC(36,18) column — the claimed
invariant fails on the accepted entry. -/
theorem c1_accepted_entry_violates_exact_balance :
    c1Run.1.status = 201 ∧
    c1Lines.length = 3 ∧
    numeric18 (exactSum "debit" c1Lines) ≠ numeric18 (exactSum "credit" c1Lines) ∧
    exactSum "debit" c1Lines ≠ exactSum "credit" c1Lines := by
  refine ⟨by decide, by decide, by decide, by decide⟩

/-- C3: a posting request that fails validation is answered with that
validation error (HTTP 400) directly: the state is unchanged and the storage
trace is empty — no connection is acquired and nothing is written. -/
theorem c3_validation_error_precedes_storage (db : DB) (ok : StoreOp → Bool)
    (eid now : String) (body : JSVal) (e : Resp)
    (h : validateEntryBody body = .error e) :
    postLedgerEntries db ok eid now body = (e, db, []) ∧ e.status = 400 := by
  constructor
  · unfold postLedgerEntries
    rw [h]
  · exact validateEntryBody_err_status h

/-- Witness for C3 at a concrete validation failure (unbalanced totals). -/
theorem c3_validation_error_precedes_storage_witness :
    postLedgerEntries ledgerDb allOk "e3" "t0" c3Body =
      (balanceErrResp (qmk 100 1) (numToFixed18 (jsAdd 0 (roundToDouble (qmk 9998 100)))), ledgerDb, []) ∧
    (balanceErrResp (qmk 100 1) (numToFixed18 (jsAdd 0 (roundToDouble (qmk 9998 100))))).status = 400 :=
  c3_validation_error_precedes_storage ledgerDb allOk "e3" "t0" c3Body
    (balanceErrResp (qmk 100 1) (numToFixed18 (jsAdd 0 (roundToDouble (qmk 9998 100))))) (by rfl)

/-- C7: a posting request whose lines collection is absent, not an array, or
has fewer than two elements is rejected with the ValidationError "At least two
ledger lines are required", with unchanged state and no storage interaction,
regardless of any amounts present. -/
theorem c7_too_few_lines_rejected (db : DB) (ok : StoreOp → Bool)
    (eid now : String) (body : JSVal)
    (h : linesTooFew (getField body "lines") = true) :
    postLedgerEntries db ok eid now body =
      (vErr "At least two ledger lines are required", db, []) := by
  unfold postLedgerEntries validateEntryBody
  cases hl : getField body "lines" with
  | arr ls =>
    rw [hl] at h
    have hlt : ls.length < 2 := by simpa [linesTooFew] using h
    simp [hlt]
  | null => simp
  | undefined => simp
  | bool b => simp
  | num q => simp
  | str s => simp
  | obj fs => simp

/-- Witness for C7: a single-line request (with a positive amount) is
rejected. -/
theorem c7_too_few_lines_rejected_witness :
    postLedgerEntries ledgerDb allOk "e7" "t0" (mkBody [mkLine "a1" "debit" (.str "50.00") "USD"]) =
      (vErr "At least two ledger lines are required", ledgerDb, []) :=
  c7_too_few_lines_rejected ledgerDb allOk "e7" "t0"
    (mkBody [mkLine "a1" "debit" (.str "50.00") "USD"]) (by decide)

/-- C2: if a posting request passes validation and, after the transaction has
begun, the entry-header insert, any line insert, or the commit fails, then the
handler answers the 500 PostingFailed response, issues ROLLBACK (it is in the
trace, before the response is produced), the visible database state is
unchanged, and an entry id that was previously not found is still not found by
a subsequent read. -/
theorem c2_storage_failure_rolls_back (db : DB) (ok : StoreOp → Bool)
    (eid now : String) (body : JSVal) (nls : List NormLine) (totD totC : ℚ)
    (hval : validateEntryBody body = .ok (nls, totD, totC))
    (hconn : ok .connect = true) (hbeg : ok .begin = true)
    (hfail : ok .insertEntry = false ∨
      (∃ j, j < nls.length ∧ ok (.insertLine j) = false) ∨ ok .commit = false) :
    (postLedgerEntries db ok eid now body).1 = ledgerFailResp ∧
    (postLedgerEntries db ok eid now body).2.1 = db ∧
    Ev.rollback ∈ (postLedgerEntries db ok eid now body).2.2 ∧
    (findEntry db eid = none → findEntry (postLedgerEntries db ok eid now body).2.1 eid = none) := by
  have hpost : postLedgerEntries db ok eid now body = storagePhase db ok eid now body nls := by
    unfold postLedgerEntries
    rw [hval]
  have habortH : ok .insertEntry = false ∨
      (insertLinesLoop db.accounts ok eid nls 0 db.nextLineId).2 = none ∨
      ok .commit = false := by
    rcases hfail with h | h | h
    · exact Or.inl h
    · cases h2 : (insertLinesLoop db.accounts ok eid nls 0 db.nextLineId).2 with
      | none => exact Or.inr (Or.inl rfl)
      | some rows =>
        obtain ⟨j, hj, hne⟩ := h
        have := (insertLinesLoop_some_ok nls 0 db.nextLineId rows h2).1 j hj
        rw [Nat.zero_add] at this
        rw [this] at hne
        cases hne
    · exact Or.inr (Or.inr h)
  have habort := @storagePhase_abort db ok eid now body nls hconn hbeg habortH
  rw [hpost]
  exact ⟨habort.1, habort.2.1, habort.2.2, fun hf => by rw [habort.2.1]; exact hf⟩

/-- Witness for C2: a commit failure on a valid balanced request yields the
500 response, a rollback in the trace, an unchanged state, and not-found on a
subsequent read of the entry id. -/
theorem c2_storage_failure_rolls_back_witness :
    (postLedgerEntries ledgerDb c2ok "e2" "t0" c2Body).1 = ledgerFailResp ∧
    (postLedgerEntries ledgerDb c2ok "e2" "t0" c2Body).2.1 = ledgerDb ∧
    Ev.rollback ∈ (postLedgerEntries ledgerDb c2ok "e2" "t0" c2Body).2.2 ∧
    (findEntry ledgerDb "e2" = none →
      findEntry (postLedgerEntries ledgerDb c2ok "e2" "t0" c2Body).2.1 "e2" = none) :=
  c2_storage_failure_rolls_back ledgerDb c2ok "e2" "t0" c2Body c2Nls
    (qmk 100 1) (qmk 100 1) (by rfl) (by rfl) (by rfl) (Or.inr (Or.inr (by rfl)))

/-- C4 counterexample: the claim states that a candidate entry using more than
one currency, each balancing independently, is accepted.  The code rejects it:
posting USD 100/100 plus EUR 50/50 answers 400 "All lines must use the same
currency" and creates nothing. -/
theorem c4_counterexample :
    (postLedgerEntries ledgerDb allOk "e4" "t0" c4Body).1 =
      vErr "All lines must use the same currency" ∧
    (postLedgerEntries ledgerDb allOk "e4" "t0" c4Body).1.status ≠ 201 ∧
    (postLedgerEntries ledgerDb allOk "e4" "t0" c4Body).2.1 = ledgerDb ∧
    (postLedgerEntries ledgerDb allOk "e4" "t0" c4Body).2.2 = [] := by
  refine ⟨by rfl, by decide, by rfl, by rfl⟩

/-- C4 (amended): any request whose otherwise well-formed lines carry two
distinct (uppercased, non-empty) currencies is rejected with ValidationError
"All lines must use the same currency" before any storage interaction —
mixed-currency entries are never accepted, balanced per currency or not. -/
theorem c4_mixed_currency_rejected (db : DB) (ok : StoreOp → Bool)
    (eid now : String) (body : JSVal) (ls : List JSVal)
    (hl : getField body "lines" = .arr ls) (hlen : 2 ≤ ls.length)
    (hwf : ∀ l ∈ ls, goodFields l = true ∧ goodDir l = true ∧ badAmt l = false ∧ ccyOf l ≠ "")
    (hmix : ∃ l1 ∈ ls, ∃ l2 ∈ ls, ccyOf l1 ≠ ccyOf l2) :
    postLedgerEntries db ok eid now body =
      (vErr "All lines must use the same currency", db, []) := by
  have hloop : validateLines ls none 0 0 [] =
      .error (vErr "All lines must use the same currency") := by
    cases ls with
    | nil => simp at hmix
    | cons l0 rest =>
      have hf := (hwf l0 (by simp)).1
      have hd := (hwf l0 (by simp)).2.1
      obtain ⟨q, ha, hq⟩ := badAmt_false_elim (hwf l0 (by simp)).2.2.1
      unfold validateLines
      simp only [checkLine_ok hf hd ha hq (Or.inl rfl)]
      have hcur : (mkNorm l0 q).currency = ccyOf l0 := rfl
      rw [hcur]
      have hex : ∃ l ∈ rest, ccyOf l ≠ ccyOf l0 := by
        obtain ⟨l1, h1, l2, h2, hne⟩ := hmix
        by_cases e1 : ccyOf l1 = ccyOf l0
        · have e2 : ccyOf l2 ≠ ccyOf l0 := by rw [e1] at hne; exact fun hh => hne hh.symm
          rcases List.mem_cons.mp h2 with h | h
          · subst h; exact absurd rfl e2
          · exact ⟨l2, h, e2⟩
        · rcases List.mem_cons.mp h1 with h | h
          · subst h; exact absurd rfl e1
          · exact ⟨l1, h, e1⟩
      exact validateLines_ccy_err
        (fun l2 h2 =>
          ⟨(hwf l2 (List.mem_cons_of_mem l0 h2)).1,
           (hwf l2 (List.mem_cons_of_mem l0 h2)).2.1,
           (hwf l2 (List.mem_cons_of_mem l0 h2)).2.2.1⟩)
        (hwf l0 (by simp)).2.2.2 hex
  have hv : validateEntryBody body = .error (vErr "All lines must use the same currency") := by
    unfold validateEntryBody
    rw [hl]
    have : ¬ ls.length < 2 := by omega
    simp [this, hloop]
  unfold postLedgerEntries
  rw [hv]

/-- Witness for C4 (amended) at the concrete mixed-currency request. -/
theorem c4_mixed_currency_rejected_witness :
    postLedgerEntries ledgerDb allOk "e4" "t0" c4Body =
      (vErr "All lines must use the same currency", ledgerDb, []) :=
  c4_mixed_currency_rejected ledgerDb allOk "e4" "t0" c4Body c4Lines (by rfl)
    (by decide) (by decide) (by decide)

/-- C5 counterexample: the claim states the operation fails with
NotFoundError.  On a line referencing the nonexistent account "ghost" the
handler's catch-all instead answers the generic 500 "Failed to create ledger
entry" (not a 404), though it does roll back and persists nothing. -/
theorem c5_counterexample :
    (postLedgerEntries c5Db allOk "e5" "t0" c5Body).1 = ledgerFailResp ∧
    (postLedgerEntries c5Db allOk "e5" "t0" c5Body).1.status = 500 ∧
    (postLedgerEntries c5Db allOk "e5" "t0" c5Body).1.status ≠ 404 ∧
    (postLedgerEntries c5Db allOk "e5" "t0" c5Body).2.1 = c5Db ∧
    Ev.rollback ∈ (postLedgerEntries c5Db allOk "e5" "t0" c5Body).2.2 := by
  refine ⟨by rfl, by decide, by decide, by rfl, by decide⟩

/-- C5 (amended): a validated posting request containing a line whose
account_id does not resolve to an existing account fails with the generic 500
storage error (not a typed NotFoundError), the transaction is rolled back, and
no entry or line is persisted. -/
theorem c5_missing_account_rolls_back (db : DB) (ok : StoreOp → Bool)
    (eid now : String) (body : JSVal) (nls : List NormLine) (totD totC : ℚ)
    (hval : validateEntryBody body = .ok (nls, totD, totC))
    (hok : ∀ s, ok s = true)
    (hfk : ∃ l ∈ nls, accountExists db.accounts l.account_id = false) :
    (postLedgerEntries db ok eid now body).1 = ledgerFailResp ∧
    (postLedgerEntries db ok eid now body).2.1 = db ∧
    Ev.rollback ∈ (postLedgerEntries db ok eid now body).2.2 := by
  have hpost : postLedgerEntries db ok eid now body = storagePhase db ok eid now body nls := by
    unfold postLedgerEntries
    rw [hval]
  have hnone : (insertLinesLoop db.accounts ok eid nls 0 db.nextLineId).2 = none := by
    cases h2 : (insertLinesLoop db.accounts ok eid nls 0 db.nextLineId).2 with
    | none => rfl
    | some rows =>
      obtain ⟨l, hl, hne⟩ := hfk
      have := (insertLinesLoop_some_ok nls 0 db.nextLineId rows h2).2 l hl
      rw [this] at hne
      cases hne
  have habort := @storagePhase_abort db ok eid now body nls
    (hok .connect) (hok .begin) (Or.inr (Or.inl hnone))
  rw [hpost]
  exact habort

/-- Witness for C5 (amended) at the concrete ghost-account request. -/
theorem c5_missing_account_rolls_back_witness :
    (postLedgerEntries c5Db allOk "e5" "t0" c5Body).1 = ledgerFailResp ∧
    (postLedgerEntries c5Db allOk "e5" "t0" c5Body).2.1 = c5Db ∧
    Ev.rollback ∈ (postLedgerEntries c5Db allOk "e5" "t0" c5Body).2.2 :=
  c5_missing_account_rolls_back c5Db allOk "e5" "t0" c5Body c5Nls
    (qmk 5 1) (qmk 5 1) (by rfl) (fun _ => rfl) (by decide)

/-- C6 counterexample: the claim states that a balance rejection carries
totals keyed by currency as `totals_by_currency` with decimal strings.  The
rejection of `c6Body` is a 400 whose payload has no `totals_by_currency`
member at all (it carries flat `details.total_debits` / `details.total_credits`
JSON numbers). -/
theorem c6_counterexample :
    (postLedgerEntries ledgerDb allOk "e6" "t0" c6Body).1.status = 400 ∧
    getField (postLedgerEntries ledgerDb allOk "e6" "t0" c6Body).1.body "error" =
      .str "Debits and credits must balance" ∧
    getField (postLedgerEntries ledgerDb allOk "e6" "t0" c6Body).1.body "totals_by_currency" =
      .undefined ∧
    getField (getField (postLedgerEntries ledgerDb allOk "e6" "t0" c6Body).1.body "details")
      "total_debits" = .num (qmk 100 1) := by
  refine ⟨by decide, by rfl, by rfl, by rfl⟩

/-- C6 (amended): a posting request rejected for unbalanced totals is answered
with the 400 payload carrying the error message and a `details` object with
the two toFixed(18)-rounded totals as JSON numbers `total_debits` and
`total_credits` (one shared accumulator pair, not keyed by currency, not
decimal strings), with unchanged state and no storage interaction. -/
theorem c6_balance_error_payload (db : DB) (ok : StoreOp → Bool)
    (eid now : String) (body : JSVal) (ls : List JSVal)
    (nls : List NormLine) (totD totC : ℚ)
    (hl : getField body "lines" = .arr ls) (hlen : ¬ ls.length < 2)
    (hloop : validateLines ls none 0 0 [] = .ok (nls, totD, totC))
    (hne : numToFixed18 totD ≠ numToFixed18 totC) :
    postLedgerEntries db ok eid now body =
      (balanceErrResp (numToFixed18 totD) (numToFixed18 totC), db, []) := by
  have hv : validateEntryBody body =
      .error (balanceErrResp (numToFixed18 totD) (numToFixed18 totC)) := by
    unfold validateEntryBody
    rw [hl]
    simp [hlen, hloop, hne]
  unfold postLedgerEntries
  rw [hv]

/-- Witness for C6 (amended) at the concrete 100.00 vs 99.99 request. -/
theorem c6_balance_error_payload_witness :
    postLedgerEntries ledgerDb allOk "e6" "t0" c6Body =
      (balanceErrResp (numToFixed18 (qmk 100 1))
        (numToFixed18 (qmk 7036170730324623 (Int.ofNat (2 ^ 46)))), ledgerDb, []) :=
  c6_balance_error_payload ledgerDb allOk "e6" "t0" c6Body
    [mkLine "a1" "debit" (.str "100.00") "USD", mkLine "a2" "credit" (.str "99.99") "USD"]
    c6Nls (qmk 100 1) (qmk 7036170730324623 (Int.ofNat (2 ^ 46)))
    (by rfl) (by decide) (by rfl) (by decide)

/-- C8: a posting request with at least two lines, all of whose lines have the
required fields, valid directions and one shared currency, but at least one of
whose amounts does not coerce to a finite strictly positive double (zero,
negative, NaN or infinite), is rejected with ValidationError "amount must be a
positive number", with unchanged state and no storage interaction. -/
theorem c8_nonpositive_amount_rejected (db : DB) (ok : StoreOp → Bool)
    (eid now : String) (body : JSVal) (ls : List JSVal)
    (hl : getField body "lines" = .arr ls) (hlen : ¬ ls.length < 2)
    (hwf : ∀ l ∈ ls, goodFields l = true ∧ goodDir l = true)
    (hccy : ∀ l1 ∈ ls, ∀ l2 ∈ ls, ccyOf l1 = ccyOf l2)
    (hbad : ∃ l ∈ ls, badAmt l = true) :
    postLedgerEntries db ok eid now body =
      (vErr "amount must be a positive number", db, []) := by
  have hloop := @validateLines_amount_err ls none 0 0 []
    hwf hccy hbad (Or.inl rfl)
  have hv : validateEntryBody body = .error (vErr "amount must be a positive number") := by
    unfold validateEntryBody
    rw [hl]
    simp [hlen, hloop]
  unfold postLedgerEntries
  rw [hv]

/-- Witness for C8 at the concrete zero-amount request. -/
theorem c8_nonpositive_amount_rejected_witness :
    postLedgerEntries ledgerDb allOk "e8" "t0" c8Body =
      (vErr "amount must be a positive number", ledgerDb, []) :=
  c8_nonpositive_amount_rejected ledgerDb allOk "e8" "t0" c8Body
    [mkLine "a1" "debit" (.str "0") "USD", mkLine "a2" "credit" (.str "1") "USD"]
    (by rfl) (by decide) (by decide) (by decide) (by decide)

/-- C9 counterexample: the claim states that a colliding account code fails
with a ConflictError identifying the unique-constraint collision rather than a
generic error.  The handler's catch-all instead answers exactly the generic
500 "Failed to create account" (no 409, no conflict detail), and no account is
created. -/
theorem c9_counterexample :
    (postAccounts c9Db true "a2" c9Body).1 = ⟨500, errObj "Failed to create account"⟩ ∧
    (postAccounts c9Db true "a2" c9Body).1.status ≠ 409 ∧
    (postAccounts c9Db true "a2" c9Body).2 = c9Db := by
  refine ⟨by rfl, by decide, by rfl⟩

/-- C9 (amended): an account-creation request with a valid name whose truthy
code equals the code of an existing account fails with the generic 500
"Failed to create account" (the unique-constraint violation is caught by the
catch-all), and the account list is unchanged. -/
theorem c9_duplicate_code_generic_error (db : DB) (okIns : Bool)
    (newId : String) (body : JSVal)
    (hname : isNonEmptyString (getField body "name") = true)
    (hcode : truthy (getField body "code") = true)
    (hdup : ∃ a ∈ db.accounts, a.code = some (jsToString (getField body "code"))) :
    postAccounts db okIns newId body = (⟨500, errObj "Failed to create account"⟩, db) := by
  have hcol : db.accounts.any
      (fun a => a.code = some (jsToString (getField body "code"))) = true := by
    rw [List.any_eq_true]
    obtain ⟨a, ha, hc⟩ := hdup
    exact ⟨a, ha, by simp [hc]⟩
  unfold postAccounts
  simp [hname, hcode, hcol]

/-- Witness for C9 (amended) at the concrete CASH collision. -/
theorem c9_duplicate_code_generic_error_witness :
    postAccounts c9Db true "a2" c9Body = (⟨500, errObj "Failed to create account"⟩, c9Db) :=
  c9_duplicate_code_generic_error c9Db true "a2" c9Body (by decide) (by decide) (by decide)

/-- C10: line amounts are validated by JavaScript Number() coercion.  Any line
whose other fields pass and whose amount value coerces to a finite double
q > 0 is accepted with stored amount exactly q (first conjunct, over all
values); in particular the boolean true coerces to 1 and the one-element
numeric array [5] coerces to 5; posting with amount true succeeds end to end
and stores the coerced 1; and the double stored for the decimal string "0.1"
is 3602879701896397/2^55, not the decimal value 1/10 the caller wrote. -/
theorem c10_amount_number_coercion :
    (∀ (cur : Option String) (l : JSVal) (q : ℚ),
      goodFields l = true → goodDir l = true →
      jsToNumber (lineField l "amount") = .fin q → qleb q 0 = false →
      (cur = none ∨ cur = some "" ∨ cur = some (ccyOf l)) →
      checkLine cur l = .ok (mkNorm l q) ∧ (mkNorm l q).amount = q) ∧
    jsToNumber (.bool true) = .fin (qmk 1 1) ∧
    jsToNumber (.arr [.num (qmk 5 1)]) = .fin (qmk 5 1) ∧
    ((postLedgerEntries ledgerDb allOk "e10" "t0" c10Body).1.status = 201 ∧
      (postLedgerEntries ledgerDb allOk "e10" "t0" c10Body).2.1.lines.map (fun l => l.amount) =
        [qmk 1 1, qmk 1 1]) ∧
    (jsToNumber (.str "0.1") = .fin (qmk 3602879701896397 (Int.ofNat (2 ^ 55))) ∧
      qmk 3602879701896397 (Int.ofNat (2 ^ 55)) ≠ qmk 1 10) := by
  refine ⟨fun cur l q hf hd ha hq hc => ⟨checkLine_ok hf hd ha hq hc, rfl⟩,
    by decide, by decide, ⟨by decide, by decide⟩, by decide, by decide⟩

/-- Witness for C10's universal conjunct at the boolean-true amount line. -/
theorem c10_amount_number_coercion_witness :
    checkLine none (mkLine "a1" "debit" (.bool true) "USD") =
      .ok (mkNorm (mkLine "a1" "debit" (.bool true) "USD") (qmk 1 1)) ∧
    (mkNorm (mkLine "a1" "debit" (.bool true) "USD") (qmk 1 1)).amount = qmk 1 1 :=
  c10_amount_number_coercion.1 none (mkLine "a1" "debit" (.bool true) "USD") (qmk 1 1)
    (by decide) (by decide) (by decide) (by decide) (Or.inl rfl)

end Troupe
